import Mathlib

/-!
Shallow embedding, in Lean 4, of the core logic of the `copliot-enigma`
repository (a desktop app driving a bundled Chromium browser), together with
theorems checking the repository's specification against the code.

Embedded modules:
* `src/utils/helpers.py` — capacity estimation and URL helpers;
* `src/driver/selenium.py` — the `BrowserClient` automation wrapper
  (binary resolution, version probing, the element-interaction retry loop,
  session lifecycle);
* `scripts/debug_browser_binaries.py` — the diagnostic binary search.

External effects (the OS process table, the filesystem, subprocess launches,
Selenium calls) are passed in as explicit parameters, so every function here
is a pure, executable translation of the corresponding Python function.
Python floats are modelled as exact rationals (`ℚ`); the claims settled below
do not depend on rounding behaviour.
-/

set_option autoImplicit false

/-! ### Python-semantics helpers -/

/-- Python `str.lower()` (ASCII case folding, which covers every string the
code passes through it). -/
def pyLower (s : String) : String :=
  ⟨s.data.map Char.toLower⟩

/-- Python `str.strip()`: remove leading and trailing whitespace. -/
def pyStrip (s : String) : String :=
  ⟨((s.data.dropWhile Char.isWhitespace).reverse.dropWhile Char.isWhitespace).reverse⟩

/-- Does `hay` start with `needle`? (helper for substring containment). -/
def listStartsWith : List Char → List Char → Bool
  | _, [] => true
  | [], _ :: _ => false
  | h :: hs, n :: ns => h == n && listStartsWith hs ns

/-- Contiguous containment of `needle` in the second list. -/
def listContainsSeq (needle : List Char) : List Char → Bool
  | [] => needle.isEmpty
  | c :: rest => listStartsWith (c :: rest) needle || listContainsSeq needle rest

/-- Python's `needle in hay` on strings. -/
def pyContains (hay needle : String) : Bool :=
  listContainsSeq needle.data hay.data

/-- Python `str.startswith` / `Path` name matching on a literal head. -/
def pyStartsWith (s pre : String) : Bool :=
  listStartsWith s.data pre.data

/-- Python `int()` applied to a (here: exact-rational) float: truncation
toward zero (floor for non-negative values, ceiling for negative ones). -/
def pyIntTrunc (q : ℚ) : Int :=
  if 0 ≤ q then ⌊q⌋ else ⌈q⌉

/-- Python `str.replace(".", "_")`. -/
def replaceDots (s : String) : String :=
  ⟨s.data.map (fun c => if c == '.' then '_' else c)⟩

/-- `Path` joining of a base directory and a relative component. -/
def joinPath (base rel : String) : String :=
  base ++ "/" ++ rel

/-- `true` exactly on `Except.error`. -/
def exceptIsError {ε α : Type} : Except ε α → Bool
  | .error _ => true
  | .ok _ => false

/-! ### `src/utils/helpers.py` — data model -/

/-- `DEFAULT_MEMORY_USAGE_MB = 350.0` (helpers.py line 15). -/
def DEFAULT_MEMORY_USAGE_MB : ℚ := 350

/-- `SystemInfo` (helpers.py lines 18-31): host metrics for capacity
calculations.  `num_cores` is `psutil.cpu_count(logical=True) or 1`, an
integer; the RAM and CPU figures are floats, modelled as `ℚ`. -/
structure SystemInfo where
  architecture : String
  num_cores : Int
  available_ram_gb : ℚ
  total_ram_gb : ℚ
  cpu_usage_percent : ℚ
  os : String
  os_version : String
  deriving DecidableEq

/-- `BrowserCapacity` (helpers.py lines 34-47). -/
structure BrowserCapacity where
  max_browsers_by_ram : Int
  max_browsers_by_cpu : Int
  max_browsers : Int
  system_info : SystemInfo
  avg_memory_per_browser_mb : ℚ
  deriving DecidableEq

/-- One row of `psutil.process_iter(["pid", "name", "memory_info"])` as seen by
`_estimate_memory_usage`: the process name (`proc.info.get("name")`, possibly
`None`), the resident set size in bytes, and whether accessing the process
raises `psutil.NoSuchProcess`/`psutil.AccessDenied` (in which case the loop
body `continue`s). -/
structure ProcInfo where
  name : Option String
  rss : Nat
  accessible : Bool
  deriving DecidableEq

/-- The summation loop of `_estimate_memory_usage` (helpers.py lines 119-125):
for every accessible process whose lower-cased name contains `process_name`,
add `rss / (1024 ** 2)` megabytes. -/
def memoryStep (process_name : String) (acc : ℚ) (p : ProcInfo) : ℚ :=
  if p.accessible && pyContains (pyLower (p.name.getD "")) process_name then
    acc + (p.rss : ℚ) / (1024 ^ 2 : ℚ)
  else acc

/-- The total of the summation loop of `_estimate_memory_usage`. -/
def memorySumMB (process_name : String) (procs : List ProcInfo) : ℚ :=
  procs.foldl (memoryStep process_name) 0

/-- `_estimate_memory_usage(command, process_name)` (helpers.py lines
108-130).  `launch` is the outcome of `subprocess.Popen(command, ...)`:
`none` models `FileNotFoundError` (the binary is absent), in which case the
function returns `DEFAULT_MEMORY_USAGE_MB` at once; otherwise it sums resident
memory over matching processes and applies Python's `memory_usage or
DEFAULT_MEMORY_USAGE_MB` (a float is falsy exactly when it is zero). -/
def _estimate_memory_usage (process_name : String) (launch : Option Unit)
    (procs : List ProcInfo) : ℚ :=
  match launch with
  | none => DEFAULT_MEMORY_USAGE_MB
  | some _ =>
    let memory_usage := memorySumMB process_name procs
    if memory_usage = 0 then DEFAULT_MEMORY_USAGE_MB else memory_usage

/-- `get_browser_memory_usage(browser)` (helpers.py lines 92-105).  The
`commands` dict has exactly the keys `"chrome"` and `"firefox"`; a lower-cased
browser name outside the dict raises `ValueError` (modelled as
`Except.error`).  `launch`/`procs` are the environment inputs forwarded to
`_estimate_memory_usage`. -/
def get_browser_memory_usage (browser : String) (launch : Option Unit)
    (procs : List ProcInfo) : Except String ℚ :=
  let b := pyLower browser
  if b = "chrome" then
    Except.ok (_estimate_memory_usage "chrome" launch procs)
  else if b = "firefox" then
    Except.ok (_estimate_memory_usage "firefox" launch procs)
  else
    Except.error "Unsupported browser: Only 'chrome' and 'firefox' are supported."

/-- `calculate_max_browsers_or_tabs(browser)` (helpers.py lines 73-89).
`system_info` stands for the `get_system_info()` snapshot; `launch`/`procs`
are the environment inputs of the memory probe.  `0.8` is the exact float
value `4/5` in the model (the claims do not depend on the rounding of `0.8`).
-/
def calculate_max_browsers_or_tabs (system_info : SystemInfo) (browser : String)
    (launch : Option Unit) (procs : List ProcInfo) : Except String BrowserCapacity :=
  match get_browser_memory_usage browser launch procs with
  | .error e => .error e
  | .ok avg_memory_per_browser =>
    let max_by_ram : Int :=
      pyIntTrunc (system_info.available_ram_gb * 1024 / avg_memory_per_browser * (4 / 5))
    let max_by_cpu : Int := system_info.num_cores
    let max_browsers : Int := max 1 (min max_by_ram max_by_cpu)
    .ok
      { max_browsers_by_ram := max_by_ram
        max_browsers_by_cpu := max_by_cpu
        max_browsers := max_browsers
        system_info := system_info
        avg_memory_per_browser_mb := avg_memory_per_browser }

/-! ### `src/utils/helpers.py` — URL helpers

`transform_url` calls `urllib.parse.urlparse` and uses only the `netloc` and
`path` components.  The embedding below follows CPython's `urlsplit`: an
optional `scheme:` head (first colon, preceded only by scheme characters with
a leading letter) is removed; a netloc is present exactly when the remainder
starts with `//` and extends to the first of `/`, `?`, `#`; the path is the
remainder up to the first `?` or `#`. -/

/-- The characters CPython allows in a URL scheme after the leading letter. -/
def schemeChar (c : Char) : Bool :=
  c.isAlphanum || c == '+' || c == '-' || c == '.'

/-- Remove a leading `scheme:` if the text before the first colon is a valid
scheme (non-empty, leading letter, only scheme characters). -/
def removeScheme (url : List Char) : List Char :=
  match url.findIdx? (fun c => c == ':') with
  | none => url
  | some i =>
    if 0 < i && (url.headD ' ').isAlpha && (url.take i).all schemeChar then
      url.drop (i + 1)
    else url

/-- Split off the netloc: present exactly when the input starts with `//`,
extending to the first `/`, `?` or `#`. -/
def splitNetloc : List Char → List Char × List Char
  | '/' :: '/' :: rest =>
    let netloc := rest.takeWhile (fun c => !(c == '/' || c == '?' || c == '#'))
    (netloc, rest.drop netloc.length)
  | other => ([], other)

/-- The `(netloc, path)` pair of `urllib.parse.urlparse`. -/
def urlparseNetlocPath (url : String) : String × String :=
  let rest := removeScheme url.data
  let parts := splitNetloc rest
  let path := parts.2.takeWhile (fun c => !(c == '?' || c == '#'))
  (⟨parts.1⟩, ⟨path⟩)

/-- `transform_url(url)` (helpers.py lines 133-142): raise on empty input,
parse, take `netloc or path` (Python truthiness: empty string is falsy),
raise if that is empty too, and return it with dots replaced by underscores.
-/
def transform_url (url : String) : Except String String :=
  if url = "" then Except.error "URL cannot be empty"
  else
    let parsed := urlparseNetlocPath url
    let domain := if parsed.1 ≠ "" then parsed.1 else parsed.2
    if domain = "" then Except.error "Invalid URL provided"
    else Except.ok (replaceDots domain)

/-! ### `BrowserClient.process_element` (src/driver/selenium.py, lines 301-334)

One call of the `try` body (wait for the element, scroll, perform the action
and post-action) either succeeds or raises an exception.  The errors the code
distinguishes are `TimeoutException`, `NoSuchElementException`,
`StaleElementReferenceException` (the transient ones, retried) and every other
`Exception` (caught by the broad handler).  The body's outcome on the `k`-th
attempt is supplied as `attempt k : Option InteractionError`, `none` meaning
success. -/

/-- The exception classification relevant to `process_element`. -/
inductive InteractionError
  | timeout
  | noSuchElement
  | staleElement
  | other
  deriving DecidableEq

/-- The first `except` clause of `process_element` catches exactly
`TimeoutException`, `NoSuchElementException` and
`StaleElementReferenceException`. -/
def isTransient : InteractionError → Bool
  | .timeout => true
  | .noSuchElement => true
  | .staleElement => true
  | .other => false

/-- `BrowserClient.process_element(element, retries)`.  Returns the total
number of attempts performed by this call (including recursive retries) and
the exception, if any, that escapes to the caller (the code swallows every
exception, so the second component is always `Except.ok ()`). -/
def process_element (attempt : Nat → Option InteractionError) :
    Nat → Nat → Nat × Except InteractionError Unit
  | k, retries =>
    match attempt k, retries with
    | none, _ => (1, Except.ok ())
    | some error, r + 1 =>
      if isTransient error then
        let rest := process_element attempt (k + 1) r
        (rest.1 + 1, rest.2)
      else (1, Except.ok ())
    | some _, 0 => (1, Except.ok ())

/-! ### `BrowserClient._read_binary_version` (src/driver/selenium.py, lines
259-277) and `read_version` (scripts/debug_browser_binaries.py, lines 53-73)

`subprocess.run(command, capture_output=True, check=True, text=True)` either
fails to launch (`FileNotFoundError`/`PermissionError`), exits non-zero
(`CalledProcessError`, because of `check=True`) or completes with captured
stdout/stderr. -/

/-- Outcome of one `subprocess.run` probe invocation. -/
inductive ProbeOutcome
  | launch_failure
  | completed (exit_code : Nat) (stdout stderr : String)
  deriving DecidableEq

/-- One iteration of the probe loop: `none` when the command launches badly,
exits non-zero, or yields empty output after `(stdout or stderr).strip()`;
otherwise the stripped output that the function returns. -/
def commandOutput : ProbeOutcome → Option String
  | .launch_failure => none
  | .completed exit_code stdout stderr =>
    if exit_code ≠ 0 then none
    else if pyStrip (if stdout = "" then stderr else stdout) = "" then none
    else some (pyStrip (if stdout = "" then stderr else stdout))

/-- `BrowserClient._read_binary_version(executable)`: run
`[executable, "--version"]` then `[executable, "--product-version"]`, return
the first usable output, else `"Unknown"`.  `run` supplies each command's
outcome. -/
def _read_binary_version (run : List String → ProbeOutcome) (executable : String) :
    String :=
  match commandOutput (run [executable, "--version"]) with
  | some output => output
  | none =>
    match commandOutput (run [executable, "--product-version"]) with
    | some output => output
    | none => "Unknown"

/-- A probe command "fails to launch or exits non-zero". -/
def probeFailed : ProbeOutcome → Prop
  | .launch_failure => True
  | .completed exit_code _ _ => exit_code ≠ 0

instance : DecidablePred probeFailed := fun o => by
  cases o <;> simp [probeFailed] <;> infer_instance

/-- Splitting a character list at newline characters (`str.splitlines` for
`\n`-separated text). -/
def splitOnNewline : List Char → List (List Char)
  | [] => [[]]
  | '\n' :: rest => [] :: splitOnNewline rest
  | c :: rest =>
    match splitOnNewline rest with
    | [] => [[c]]
    | line :: lines => (c :: line) :: lines

/-- Modelled from the spec: "parses the first non-empty line of
standard-out/err as the version string" — the first line of stdout then
stderr whose stripped form is non-empty.  Rendered only to compare the spec's
words with what `_read_binary_version` actually returns. -/
def spec_first_nonempty_line (stdout stderr : String) : Option String :=
  ((splitOnNewline stdout.data ++ splitOnNewline stderr.data).find?
    (fun line => pyStrip ⟨line⟩ != "")).map (fun line => (⟨line⟩ : String))

/-- Concrete probe environment for the version-string comparison: `--version`
succeeds with a two-line stdout, every other command fails to launch. -/
def multilineProbeRun : List String → ProbeOutcome := fun command =>
  if command.getD 1 "" = "--version" then
    ProbeOutcome.completed 0 "Chromium 91.0.4472.114\nDeveloper build" ""
  else ProbeOutcome.launch_failure

/-- Concrete probe environment exercising the fallback: `--version` fails to
launch, `--product-version` succeeds. -/
def fallbackProbeRun : List String → ProbeOutcome := fun command =>
  if command.getD 1 "" = "--product-version" then
    ProbeOutcome.completed 0 "91.0.4472.114" ""
  else ProbeOutcome.launch_failure

/-! ### Binary resolution (src/driver/selenium.py, lines 183-234, and
scripts/debug_browser_binaries.py, lines 31-50)

The filesystem is abstracted as the two observations the code makes:
`Path.exists()` and `Path.rglob(pattern)` (whose hits carry their
`is_file()` / `is_symlink()` status). -/

/-- One `Path.rglob` hit with the predicates the search applies to it. -/
structure FSEntry where
  path : String
  is_file : Bool
  is_symlink : Bool
  deriving DecidableEq

/-- The filesystem as observed by the binary search. -/
structure FileSystem where
  path_exists : String → Bool
  rglob : String → String → List FSEntry

/-- Modelled from the spec: `utils.filesystem.get_resource_path` is imported
by `selenium.py` but its module is not shipped in the sources; per the spec
(§4.1, §8) resolution over missing roots falls back to "searching the current
working directory", so a relative resource name resolves against the working
directory, `"."` denoting that directory itself. -/
def get_resource_path (cwd : String) (relative : String) : String :=
  if relative = "." then cwd else joinPath cwd relative

/-- `BrowserClient._find_binary(roots, patterns)` (selenium.py lines 226-234)
— also textually identical to `find_binary` in the debug script: first
`rglob` hit under any root, for any pattern, that is a file or a symlink. -/
def _find_binary (fs : FileSystem) (roots : List String) (patterns : List String) :
    Option String :=
  roots.findSome? fun root =>
    patterns.findSome? fun pattern =>
      ((fs.rglob root pattern).find? (fun c => c.is_file || c.is_symlink)).map
        (fun c => c.path)

/-- `BrowserClient._candidate_roots()` (selenium.py lines 212-224): the
existing ones among the two packaged-browser directories, falling back to the
resource base (`get_resource_path(".")`) when neither exists. -/
def _candidate_roots (fs : FileSystem) (cwd : String) : List String :=
  let potential_roots :=
    [get_resource_path cwd "chrome_portable", get_resource_path cwd "ungoogled_chromium"]
  let roots := potential_roots.filter fs.path_exists
  if roots.isEmpty then [get_resource_path cwd "."] else roots

/-- The `driver_name` local of `_resolve_binary_paths` (selenium.py line 185).
-/
def driver_name (platform_name : String) : String :=
  if pyStartsWith platform_name "win" then "chromedriver.exe" else "chromedriver"

/-- The `browser_candidates` local of `_resolve_binary_paths` (selenium.py
lines 187-196). -/
def browser_candidates (platform_name : String) : List String :=
  if pyStartsWith platform_name "win" then ["chrome.exe"]
  else if platform_name = "darwin" then
    ["Chromium.app/Contents/MacOS/Chromium", "Chromium"]
  else ["chrome", "chromium"]

/-- `BrowserBinaryPaths` (selenium.py lines 32-43). -/
structure BrowserBinaryPaths where
  browser_executable : String
  driver_executable : String
  deriving DecidableEq

/-- `BrowserClient._resolve_binary_paths()` (selenium.py lines 183-210): one
search pass over the candidate roots for browser and driver; a
`FileNotFoundError` (modelled as `Except.error`) when either is missing. -/
def _resolve_binary_paths (fs : FileSystem) (platform_name : String) (cwd : String) :
    Except String BrowserBinaryPaths :=
  let search_roots := _candidate_roots fs cwd
  let browser_path := _find_binary fs search_roots (browser_candidates platform_name)
  let driver_path := _find_binary fs search_roots [driver_name platform_name]
  match browser_path, driver_path with
  | some b, some d =>
    Except.ok { browser_executable := b, driver_executable := d }
  | _, _ =>
    Except.error "Unable to locate packaged Chromium or ChromeDriver binaries."

/-- `expand_roots(root_arguments)` (debug_browser_binaries.py lines 31-41):
expanduser, make absolute against the working directory, keep the existing
ones, falling back to `[Path.cwd()]`.  `expanduser` and `is_absolute` are
environment observations. -/
def expand_roots (path_exists : String → Bool) (expanduser : String → String)
    (is_absolute : String → Bool) (cwd : String) (root_arguments : List String) :
    List String :=
  let roots := root_arguments.filterMap fun root =>
    let path := expanduser root
    let path := if is_absolute path then path else joinPath cwd path
    if path_exists path then some path else none
  if roots.isEmpty then [cwd] else roots

/-- A filesystem with no directories and no `rglob` hits (fixture for the
resolution theorems). -/
def emptyFS : FileSystem where
  path_exists := fun _ => false
  rglob := fun _ _ => []

/-! ### `BrowserClient` session lifecycle (src/driver/selenium.py, lines
85-135 and 493-501)

The claims touch exactly the fields `initialize_driver`/`close_driver`
assign: `driver`, `wait`, `initial_window_handle`.  `D` is the opaque type of
the underlying Selenium driver handle; `W` the type of the `WebDriverWait`
value. -/

/-- The session-relevant mutable state of a `BrowserClient`. -/
structure ClientState (D W : Type) where
  driver : Option D
  wait : Option W
  initial_window_handle : Option String
  deriving DecidableEq

/-- `BrowserClient.ensure_driver()` (selenium.py lines 111-114): call
`initialize_driver()` only when `self.driver is None`.  `initialize_driver`'s
outcome (the new state, or the re-raised `WebDriverException`) is supplied as
a parameter. -/
def ensure_driver {D W : Type} (initialize_driver : Except String (ClientState D W))
    (s : ClientState D W) : Except String (ClientState D W) :=
  match s.driver with
  | none => initialize_driver
  | some _ => Except.ok s

/-- Result of `BrowserClient.close_driver()` (selenium.py lines 493-501): the
state afterwards, and whether the `else` branch logged the
"Driver is not initialised" warning. -/
structure CloseResult (D W : Type) where
  state : ClientState D W
  warned : Bool
  deriving DecidableEq

/-- `BrowserClient.close_driver()`: quit and clear the fields when a driver
exists, otherwise log a warning and change nothing.  No path raises. -/
def close_driver {D W : Type} (s : ClientState D W) : CloseResult D W :=
  match s.driver with
  | some _ =>
    { state := { driver := none, wait := none, initial_window_handle := none }
      warned := false }
  | none => { state := s, warned := true }

/-! ### Fixtures for witnesses -/

/-- A concrete `SystemInfo` snapshot: 4 logical cores, 8 GB available RAM. -/
def sampleSystemInfo : SystemInfo where
  architecture := "x86_64"
  num_cores := 4
  available_ram_gb := 8
  total_ram_gb := 16
  cpu_usage_percent := 12
  os := "Linux"
  os_version := "6.1.0"

/-- The capacity record `calculate_max_browsers_or_tabs` produces for
`sampleSystemInfo` with the probe falling back to the 350 MB default:
`int(8 * 1024 / 350 * 0.8) = 18`, `min(18, 4) = 4`. -/
def sampleCapacity : BrowserCapacity where
  max_browsers_by_ram := 18
  max_browsers_by_cpu := 4
  max_browsers := 4
  system_info := sampleSystemInfo
  avg_memory_per_browser_mb := 350

/-- A process-table row matching the chrome probe with 2 GiB resident. -/
def sampleChromeProc : ProcInfo where
  name := some "chrome"
  rss := 2147483648
  accessible := true

/-- A client whose session is live (fixture for the lifecycle theorem). -/
def liveClientState : ClientState Nat Nat where
  driver := some 1
  wait := some 10
  initial_window_handle := some "CDwindow-1"

/-- A client whose session is closed or was never created. -/
def closedClientState : ClientState Nat Nat where
  driver := none
  wait := none
  initial_window_handle := none

/-! ## Theorems -/

/-- C1: for every retry count `R ≥ 0`, a `process_element` call on an element
whose interaction always fails with a transient error (element not found,
stale reference, or wait timeout) performs the attempt exactly `R + 1` times
and returns normally, surfacing no failure to the caller. -/
theorem process_element_transient_exhausts_retries
    (attempt : Nat → Option InteractionError) (e : InteractionError)
    (hAll : ∀ k, attempt k = some e) (hTrans : isTransient e = true) :
    ∀ (R k : Nat), process_element attempt k R = (R + 1, Except.ok ()) := by
  intro R
  induction R with
  | zero =>
    intro k
    simp [process_element, hAll k]
  | succ r ih =>
    intro k
    simp [process_element, hAll k, hTrans, ih (k + 1)]

/-- C1 witness: with every attempt raising a stale-element error and retry
budget 5, exactly 6 attempts happen and the call returns normally. -/
theorem process_element_transient_exhausts_retries_witness :
    process_element (fun _ => some InteractionError.staleElement) 0 5 =
      (6, Except.ok ()) :=
  process_element_transient_exhausts_retries
    (fun _ => some InteractionError.staleElement) InteractionError.staleElement
    (fun _ => rfl) rfl 5 0

/-- Each step of the memory-summation loop only ever adds a non-negative
megabyte figure, so the running total never decreases. -/
theorem foldl_memoryStep_le (process_name : String) :
    ∀ (procs : List ProcInfo) (acc : ℚ),
      acc ≤ procs.foldl (memoryStep process_name) acc := by
  intro procs
  induction procs with
  | nil => intro acc; simp
  | cons p t ih =>
    intro acc
    refine le_trans ?_ (ih (memoryStep process_name acc p))
    unfold memoryStep
    split
    · have hnn : (0 : ℚ) ≤ (p.rss : ℚ) / (1024 ^ 2 : ℚ) := by positivity
      linarith
    · exact le_refl acc

/-- C2: every capacity record produced by `calculate_max_browsers_or_tabs`
satisfies `max_browsers = max 1 (min max_browsers_by_ram
max_browsers_by_cpu)`; in particular `max_browsers ≥ 1` always, and
`max_browsers` equals the minimum whenever that minimum is at least 1. -/
theorem calculate_max_browsers_floor_invariant
    (system_info : SystemInfo) (browser : String) (launch : Option Unit)
    (procs : List ProcInfo) (cap : BrowserCapacity)
    (h : calculate_max_browsers_or_tabs system_info browser launch procs =
      Except.ok cap) :
    cap.max_browsers = max 1 (min cap.max_browsers_by_ram cap.max_browsers_by_cpu) ∧
    1 ≤ cap.max_browsers ∧
    (1 ≤ min cap.max_browsers_by_ram cap.max_browsers_by_cpu →
      cap.max_browsers = min cap.max_browsers_by_ram cap.max_browsers_by_cpu) := by
  unfold calculate_max_browsers_or_tabs at h
  cases hg : get_browser_memory_usage browser launch procs with
  | error e =>
    rw [hg] at h
    exact absurd h (by simp)
  | ok avg =>
    rw [hg] at h
    simp only [Except.ok.injEq] at h
    subst h
    refine ⟨rfl, ?_, ?_⟩
    · exact le_max_left 1 _
    · intro hmin
      exact max_eq_right hmin

/-- C2 witness: on the sample host (4 cores, 8 GB available) with the probe
falling back to the 350 MB default, the record is `⟨18, 4, 4, …⟩` and the
three invariant clauses hold for it. -/
theorem calculate_max_browsers_floor_invariant_witness :
    calculate_max_browsers_or_tabs sampleSystemInfo "chrome" none [] =
      Except.ok sampleCapacity ∧
    (sampleCapacity.max_browsers =
        max 1 (min sampleCapacity.max_browsers_by_ram sampleCapacity.max_browsers_by_cpu) ∧
      1 ≤ sampleCapacity.max_browsers ∧
      (1 ≤ min sampleCapacity.max_browsers_by_ram sampleCapacity.max_browsers_by_cpu →
        sampleCapacity.max_browsers =
          min sampleCapacity.max_browsers_by_ram sampleCapacity.max_browsers_by_cpu)) := by
  have havg : get_browser_memory_usage "chrome" none [] =
      Except.ok DEFAULT_MEMORY_USAGE_MB := by
    have hlow : pyLower "chrome" = "chrome" := rfl
    simp [get_browser_memory_usage, _estimate_memory_usage, hlow]
  have hc : calculate_max_browsers_or_tabs sampleSystemInfo "chrome" none [] =
      Except.ok sampleCapacity := by
    simp only [calculate_max_browsers_or_tabs, havg, sampleCapacity, sampleSystemInfo,
      Except.ok.injEq, BrowserCapacity.mk.injEq, DEFAULT_MEMORY_USAGE_MB, pyIntTrunc]
    norm_num
  exact ⟨hc, calculate_max_browsers_floor_invariant sampleSystemInfo "chrome" none []
    sampleCapacity hc⟩

/-- C3: when the capacity probe cannot start the browser process (launching
raises `FileNotFoundError` because the binary is absent),
`_estimate_memory_usage` returns exactly the 350.0 default instead of
raising. -/
theorem estimate_memory_usage_launch_failure_default
    (process_name : String) (procs : List ProcInfo) :
    _estimate_memory_usage process_name none procs = DEFAULT_MEMORY_USAGE_MB ∧
    DEFAULT_MEMORY_USAGE_MB = 350 :=
  ⟨rfl, rfl⟩

/-- C9: even when the probe launches, a zero resident-memory sum still yields
the 350 MB default, and the returned estimate is strictly positive on every
input — so the capacity division never sees a zero divisor. -/
theorem estimate_memory_usage_never_zero
    (process_name : String) (launch : Option Unit) (procs : List ProcInfo) :
    (memorySumMB process_name procs = 0 →
      _estimate_memory_usage process_name launch procs = DEFAULT_MEMORY_USAGE_MB) ∧
    0 < _estimate_memory_usage process_name launch procs := by
  have hnn : 0 ≤ memorySumMB process_name procs :=
    foldl_memoryStep_le process_name procs 0
  constructor
  · intro h0
    cases launch with
    | none => rfl
    | some u => simp [_estimate_memory_usage, h0]
  · cases launch with
    | none =>
      norm_num [_estimate_memory_usage, DEFAULT_MEMORY_USAGE_MB]
    | some u =>
      simp only [_estimate_memory_usage]
      split
      · norm_num [DEFAULT_MEMORY_USAGE_MB]
      · rename_i hne
        exact lt_of_le_of_ne hnn (fun heq => hne heq.symm)

/-- C9 witness: with a launched probe and an empty process table the sum is
zero, the default is returned, and the estimate is positive. -/
theorem estimate_memory_usage_never_zero_witness :
    _estimate_memory_usage "chrome" (some ()) [] = DEFAULT_MEMORY_USAGE_MB ∧
    0 < _estimate_memory_usage "chrome" (some ()) [] :=
  ⟨(estimate_memory_usage_never_zero "chrome" (some ()) []).1 rfl,
   (estimate_memory_usage_never_zero "chrome" (some ()) []).2⟩

/-- C10: `get_browser_memory_usage` raises `ValueError` if and only if the
lower-cased browser name is neither `"chrome"` nor `"firefox"`; for those two
it never raises at the name-dispatch step. -/
theorem get_browser_memory_usage_valueerror_iff
    (browser : String) (launch : Option Unit) (procs : List ProcInfo) :
    exceptIsError (get_browser_memory_usage browser launch procs) = true ↔
      (pyLower browser ≠ "chrome" ∧ pyLower browser ≠ "firefox") := by
  by_cases h1 : pyLower browser = "chrome"
  · simp [get_browser_memory_usage, h1, exceptIsError]
  · by_cases h2 : pyLower browser = "firefox"
    · simp [get_browser_memory_usage, h1, h2, exceptIsError]
    · simp [get_browser_memory_usage, h1, h2, exceptIsError]

/-- C10 witness: `"Opera"` lower-cases to neither supported name, so the
dispatch raises; dually the mixed-case `"Chrome"` is accepted. -/
theorem get_browser_memory_usage_valueerror_iff_witness :
    exceptIsError (get_browser_memory_usage "Opera" none []) = true ∧
    exceptIsError (get_browser_memory_usage "Chrome" none []) = false :=
  ⟨(get_browser_memory_usage_valueerror_iff "Opera" none []).mpr (by decide),
   by
    have h := (get_browser_memory_usage_valueerror_iff "Chrome" none []).not
    cases hE : exceptIsError (get_browser_memory_usage "Chrome" none []) with
    | false => rfl
    | true =>
      exact absurd ((get_browser_memory_usage_valueerror_iff "Chrome" none []).mp hE)
        (by decide)⟩

/-- C4 counterexample: `transform_url` — the function the claim's sources
name for URL normalization — maps `"example.com"` to the filesystem token
`"example_com"`, not to `"https://example.com"`, and it accepts
`"not a url"` (whose `path` component is the non-empty `"not a url"`) instead
of rejecting it. -/
theorem transform_url_normalization_counterexample :
    transform_url "example.com" = Except.ok "example_com" ∧
    ("example_com" : String) ≠ "https://example.com" ∧
    transform_url "not a url" = Except.ok "not a url" ∧
    exceptIsError (transform_url "not a url") = false :=
  ⟨rfl, by decide, rfl, rfl⟩

/-- C4 amended: `transform_url` converts a URL into a filesystem-friendly
identifier: `"example.com"` becomes `"example_com"` (dots replaced by
underscores, no scheme prepended), `"not a url"` is accepted unchanged
because its parsed path is non-empty, a scheme-qualified
`"https://example.com"` also yields `"example_com"` from its network
location, and only inputs that are empty or parse with neither network
location nor path are rejected. -/
theorem transform_url_filesystem_token :
    transform_url "example.com" = Except.ok "example_com" ∧
    transform_url "not a url" = Except.ok "not a url" ∧
    transform_url "https://example.com" = Except.ok "example_com" ∧
    transform_url "" = Except.error "URL cannot be empty" ∧
    transform_url "https://" = Except.error "Invalid URL provided" :=
  ⟨rfl, rfl, rfl, rfl, rfl⟩

/-- A probe command that fails to launch or exits non-zero contributes no
output to the version loop. -/
theorem commandOutput_eq_none_of_probeFailed (o : ProbeOutcome)
    (h : probeFailed o) : commandOutput o = none := by
  cases o with
  | launch_failure => rfl
  | completed exit_code stdout stderr =>
    simp only [probeFailed] at h
    simp [commandOutput, h]

/-- C5 counterexample: with `--version` succeeding on a two-line stdout, the
code returns the whole stripped output `"Chromium 91.0.4472.114\nDeveloper
build"`, not the first non-empty line `"Chromium 91.0.4472.114"` that the
claim promises. -/
theorem read_binary_version_first_line_counterexample :
    _read_binary_version multilineProbeRun "/opt/chromium/chrome" =
      "Chromium 91.0.4472.114\nDeveloper build" ∧
    spec_first_nonempty_line "Chromium 91.0.4472.114\nDeveloper build" "" =
      some "Chromium 91.0.4472.114" ∧
    ("Chromium 91.0.4472.114\nDeveloper build" : String) ≠
      "Chromium 91.0.4472.114" :=
  ⟨rfl, rfl, by decide⟩

/-- A command that exits zero produces its stripped `stdout or stderr`,
provided that is non-empty. -/
theorem commandOutput_completed_zero (stdout stderr : String)
    (hne : pyStrip (if stdout = "" then stderr else stdout) ≠ "") :
    commandOutput (ProbeOutcome.completed 0 stdout stderr) =
      some (pyStrip (if stdout = "" then stderr else stdout)) := by
  simp only [commandOutput]
  rw [if_neg (fun hc => hc rfl), if_neg hne]

/-- C5 amended: the version probe runs `<binary> --version` then
`<binary> --product-version`; it returns the stripped standard-out (or
standard-err when standard-out is empty) of the first command that launches,
exits zero and yields non-empty output — the `--version` output when that
command succeeds, else the `--product-version` output when `--version`
produced nothing usable — and it returns the sentinel `"Unknown"`,
propagating no error, whenever every probe command fails to launch or exits
non-zero. -/
theorem read_binary_version_behaviour (run : List String → ProbeOutcome)
    (executable : String) :
    ((probeFailed (run [executable, "--version"]) ∧
        probeFailed (run [executable, "--product-version"])) →
      _read_binary_version run executable = "Unknown") ∧
    (∀ stdout stderr,
      run [executable, "--version"] = ProbeOutcome.completed 0 stdout stderr →
      pyStrip (if stdout = "" then stderr else stdout) ≠ "" →
      _read_binary_version run executable =
        pyStrip (if stdout = "" then stderr else stdout)) ∧
    (∀ stdout stderr,
      commandOutput (run [executable, "--version"]) = none →
      run [executable, "--product-version"] = ProbeOutcome.completed 0 stdout stderr →
      pyStrip (if stdout = "" then stderr else stdout) ≠ "" →
      _read_binary_version run executable =
        pyStrip (if stdout = "" then stderr else stdout)) := by
  refine ⟨?_, ?_, ?_⟩
  · intro h
    unfold _read_binary_version
    rw [commandOutput_eq_none_of_probeFailed _ h.1,
      commandOutput_eq_none_of_probeFailed _ h.2]
  · intro stdout stderr hrun hne
    unfold _read_binary_version
    rw [hrun, commandOutput_completed_zero stdout stderr hne]
  · intro stdout stderr hfirst hrun hne
    unfold _read_binary_version
    rw [hfirst, hrun, commandOutput_completed_zero stdout stderr hne]

/-- C5 witness for the amended claim: a binary whose probes never launch
reports `"Unknown"`, and one whose `--version` fails to launch while
`--product-version` prints `"91.0.4472.114"` reports that string. -/
theorem read_binary_version_behaviour_witness :
    _read_binary_version (fun _ => ProbeOutcome.launch_failure)
      "/missing/chromedriver" = "Unknown" ∧
    _read_binary_version fallbackProbeRun "/opt/chromium/chrome" =
      "91.0.4472.114" :=
  ⟨(read_binary_version_behaviour (fun _ => ProbeOutcome.launch_failure)
      "/missing/chromedriver").1 ⟨trivial, trivial⟩,
   ((read_binary_version_behaviour fallbackProbeRun "/opt/chromium/chrome").2.2
      "91.0.4472.114" "" rfl rfl (by decide)).trans (by decide)⟩

/-- C6: when either the browser or the driver binary is not found after the
single scan over the configured roots, `_resolve_binary_paths` raises the
binary-not-found error — no partial result, no retry. -/
theorem resolve_binary_paths_not_found_raises
    (fs : FileSystem) (platform_name cwd : String)
    (h : _find_binary fs (_candidate_roots fs cwd) (browser_candidates platform_name) = none ∨
      _find_binary fs (_candidate_roots fs cwd) [driver_name platform_name] = none) :
    _resolve_binary_paths fs platform_name cwd =
      Except.error "Unable to locate packaged Chromium or ChromeDriver binaries." := by
  rcases h with h | h <;>
    cases hb : _find_binary fs (_candidate_roots fs cwd) (browser_candidates platform_name) <;>
    cases hd : _find_binary fs (_candidate_roots fs cwd) [driver_name platform_name] <;>
    simp_all [_resolve_binary_paths]

/-- C6 witness: on an empty filesystem the resolution raises the
binary-not-found error. -/
theorem resolve_binary_paths_not_found_raises_witness :
    _resolve_binary_paths emptyFS "linux" "/workdir" =
      Except.error "Unable to locate packaged Chromium or ChromeDriver binaries." :=
  resolve_binary_paths_not_found_raises emptyFS "linux" "/workdir" (Or.inl rfl)

/-- C7: when every configured root is missing, both root-expansion routines
fall back to the current working directory (for `_candidate_roots`, via the
spec-modelled `get_resource_path`), and `_find_binary` returns `none` when no
file or symlink matches any pattern under any root. -/
theorem binary_search_fallback_and_none
    (fs : FileSystem) (expanduser : String → String) (is_absolute : String → Bool)
    (cwd : String) (root_arguments : List String)
    (hmissing : ∀ s, fs.path_exists s = false)
    (hnomatch : ∀ root pattern entry, entry ∈ fs.rglob root pattern →
      entry.is_file = false ∧ entry.is_symlink = false) :
    expand_roots fs.path_exists expanduser is_absolute cwd root_arguments = [cwd] ∧
    _candidate_roots fs cwd = [get_resource_path cwd "."] ∧
    get_resource_path cwd "." = cwd ∧
    (∀ roots patterns, _find_binary fs roots patterns = none) := by
  refine ⟨?_, ?_, rfl, ?_⟩
  · simp [expand_roots, hmissing]
  · simp [_candidate_roots, List.filter_eq_nil_iff, hmissing]
  · intro roots patterns
    unfold _find_binary
    rw [List.findSome?_eq_none_iff]
    intro root _
    rw [List.findSome?_eq_none_iff]
    intro pattern _
    rw [Option.map_eq_none', List.find?_eq_none]
    intro entry hentry
    have hflags := hnomatch root pattern entry hentry
    simp [hflags.1, hflags.2]

/-- C7 witness: with no existing directories and no glob hits, the debug
script's expansion and the client's candidate roots both collapse to the
working directory, and the search finds nothing. -/
theorem binary_search_fallback_and_none_witness :
    expand_roots emptyFS.path_exists (fun s => s) (fun s => pyStartsWith s "/")
      "/workdir" ["ungoogled_chromium", "chrome_portable"] = ["/workdir"] ∧
    _candidate_roots emptyFS "/workdir" = ["/workdir"] ∧
    _find_binary emptyFS ["/workdir"] ["chromedriver.exe", "chromedriver"] = none := by
  have h := binary_search_fallback_and_none emptyFS (fun s => s)
    (fun s => pyStartsWith s "/") "/workdir" ["ungoogled_chromium", "chrome_portable"]
    (fun _ => rfl)
    (fun root pattern entry hmem => absurd hmem (List.not_mem_nil entry))
  refine ⟨h.1, ?_, h.2.2.2 ["/workdir"] ["chromedriver.exe", "chromedriver"]⟩
  rw [h.2.1, h.2.2.1]

/-- C8: `ensure_driver` creates the session only when none exists — with a
live driver the client state is returned unchanged and
`initialize_driver` is never consulted — and `close_driver` on an
already-closed client is a warning-logging no-op that raises nothing and
changes no state. -/
theorem driver_lifecycle_idempotent {D W : Type}
    (initialize_driver : Except String (ClientState D W)) (s : ClientState D W) :
    (∀ d, s.driver = some d → ensure_driver initialize_driver s = Except.ok s) ∧
    (s.driver = none → close_driver s = { state := s, warned := true }) := by
  constructor
  · intro d hd
    simp [ensure_driver, hd]
  · intro hn
    simp [close_driver, hn]

/-- C8 witness: a live client survives `ensure_driver` unchanged even when a
fresh initialisation would fail, and closing an already-closed client only
warns. -/
theorem driver_lifecycle_idempotent_witness :
    ensure_driver (Except.error "WebDriverException") liveClientState =
      Except.ok liveClientState ∧
    close_driver closedClientState = { state := closedClientState, warned := true } :=
  ⟨(driver_lifecycle_idempotent (Except.error "WebDriverException") liveClientState).1
      1 rfl,
   (driver_lifecycle_idempotent (Except.error "WebDriverException") closedClientState).2
      rfl⟩
